import Mathlib

/-!
Shallow embedding of `src/main.py` (Healthcare Benefits API): the content
catalog read endpoints (`/services`, `/team`, `/testimonials`) with their
fallback-to-defaults behaviour, and the contact submission endpoint
(`POST /contact`) with its pydantic validation and store insert.

The external document store (module `database`, not in `src/`) is modelled
by passing its outcome explicitly: a read endpoint receives
`Except String (List StoreDoc)` (either the list of records returned by
`get_documents` or a raised failure), and the insert receives an
`InsertResult` (either the store-assigned id and timestamp, or a raised
failure).
-/

/-- A record returned by the store, as an association list of string-valued
fields; a field absent from a record is a key absent from the list. -/
abbrev StoreDoc := List (String × String)

/-- From `src/main.py` lines 58-63: the `Service` pydantic model. -/
structure Service where
  key : String
  title : String
  subtitle : Option String
  description : String
  icon : Option String
deriving DecidableEq

/-- From `src/main.py` lines 49-55: the `TeamMember` pydantic model.
`name`, `role`, `bio` are required; the rest default to `None`. -/
structure TeamMember where
  name : String
  role : String
  bio : String
  photo : Option String
  linkedin : Option String
  twitter : Option String
deriving DecidableEq

/-- From `src/main.py` lines 41-46: the `Testimonial` pydantic model.
`author` and `quote` are required; the rest default to `None`. -/
structure Testimonial where
  author : String
  role : Option String
  company : Option String
  quote : String
  logo : Option String
deriving DecidableEq

/-- From `src/main.py` lines 95-124: the literal `defaults` list built in
`list_services`. -/
def servicesDefaults : List Service :=
  [ { key := "corporate-benefits"
    , title := "Corporate Benefits Packages"
    , subtitle := some "Custom plans for every team"
    , description := "Design comprehensive, scalable health plans for organizations of any size, optimized for cost, coverage, and employee satisfaction."
    , icon := some "Building" }
  , { key := "wellness-programs"
    , title := "Employee Wellness Programs"
    , subtitle := some "Holistic wellbeing at work"
    , description := "From fitness and nutrition to mental health, empower your workforce with programs that measurably improve wellbeing."
    , icon := some "HeartPulse" }
  , { key := "telemedicine"
    , title := "Telemedicine & Digital Health"
    , subtitle := some "Care, anywhere"
    , description := "Remote consultations, virtual primary care, and digital tools that bring healthcare to your people wherever they are."
    , icon := some "Smartphone" }
  , { key := "claims-management"
    , title := "Insurance & Claims Management"
    , subtitle := some "End-to-end support"
    , description := "Streamlined administration for benefits, eligibility, and claims — with transparency and compliance built-in."
    , icon := some "ShieldCheck" } ]

/-- From `src/main.py` lines 146-175: the literal `defaults` list built in
`list_team`. Fields not passed (`twitter`) take the model default `None`. -/
def teamDefaults : List TeamMember :=
  [ { name := "Ava Thompson, MPH"
    , role := "Chief Executive Officer"
    , bio := "Leader in value-based care and benefits innovation with 15+ years building equitable health ecosystems."
    , photo := none
    , linkedin := some "https://www.linkedin.com/"
    , twitter := none }
  , { name := "Daniel Kim, FSA"
    , role := "Chief Actuary"
    , bio := "Actuarial strategist focused on cost containment and data-driven plan design for modern workforces."
    , photo := none
    , linkedin := some "https://www.linkedin.com/"
    , twitter := none }
  , { name := "Priya Nair, RN MSN"
    , role := "VP, Clinical Programs"
    , bio := "Nurse leader bringing human-centered care pathways to digital-first populations."
    , photo := none
    , linkedin := some "https://www.linkedin.com/"
    , twitter := none }
  , { name := "Miguel Alvarez"
    , role := "Director, Digital Health"
    , bio := "Builder of telehealth and engagement platforms connecting patients to the right care at the right time."
    , photo := none
    , linkedin := some "https://www.linkedin.com/"
    , twitter := none } ]

/-- From `src/main.py` lines 187-206: the literal `defaults` list built in
`list_testimonials`. Fields not passed (`logo`) take the model default `None`. -/
def testimonialDefaults : List Testimonial :=
  [ { author := "Lena M."
    , role := some "VP People"
    , company := some "Atlas Robotics"
    , quote := "Their benefits redesign cut our costs by 12% while boosting engagement — the best decision we made this year."
    , logo := none }
  , { author := "Craig P."
    , role := some "Head of Total Rewards"
    , company := some "Northwind Logistics"
    , quote := "Implementation was seamless and our employees love the telehealth access and mental health support."
    , logo := none }
  , { author := "Dr. Sofia R."
    , role := some "Medical Director"
    , company := some "CareWorks Clinic"
    , quote := "Thoughtful, data-driven partners who truly understand the clinical and financial sides of health benefits."
    , logo := none } ]

/-- From `src/main.py` lines 130-137: the per-record mapping of
`list_services`: `d.get(field, default)` for the required fields and
`d.get(field)` for the optional ones; any other attribute of `d` is
dropped because it is never read. -/
def serviceOfDoc (d : StoreDoc) : Service :=
  { key := (d.lookup "key").getD "service"
  , title := (d.lookup "title").getD "Service"
  , subtitle := d.lookup "subtitle"
  , description := (d.lookup "description").getD ""
  , icon := d.lookup "icon" }

/-- From `src/main.py` line 180: `TeamMember(**{k: v for k, v in d.items()
if k in TeamMember.__fields__})`. Keys outside the model fields are
filtered out; a missing required field (`name`, `role`, `bio`) makes the
pydantic constructor raise, modelled as `none`; missing optional fields
take the model default `None`. -/
def teamMemberOfDoc (d : StoreDoc) : Option TeamMember :=
  match d.lookup "name", d.lookup "role", d.lookup "bio" with
  | some n, some r, some b =>
      some { name := n, role := r, bio := b
           , photo := d.lookup "photo"
           , linkedin := d.lookup "linkedin"
           , twitter := d.lookup "twitter" }
  | _, _, _ => none

/-- From `src/main.py` line 211: same filtering construction for
`Testimonial`; required fields are `author` and `quote`. -/
def testimonialOfDoc (d : StoreDoc) : Option Testimonial :=
  match d.lookup "author", d.lookup "quote" with
  | some a, some q =>
      some { author := a
           , role := d.lookup "role"
           , company := d.lookup "company"
           , quote := q
           , logo := d.lookup "logo" }
  | _, _ => none

/-- A Python list comprehension whose element expression may raise: all
elements are built in order and the first raise aborts the whole list,
modelled as `none`. -/
def mapOpt (f : α → Option β) : List α → Option (List β)
  | [] => some []
  | a :: l =>
      match f a, mapOpt f l with
      | some b, some bs => some (b :: bs)
      | _, _ => none

/-- From `src/main.py` lines 91-141, `list_services`: query the store for
up to 100 `service` records; on a raised failure or an empty result return
the defaults, otherwise map every record through the per-field defaulting.
The mapping itself cannot raise (every field is read with `.get`). -/
def list_services (store : Except String (List StoreDoc)) : List Service :=
  match store with
  | .error _ => servicesDefaults
  | .ok [] => servicesDefaults
  | .ok docs => docs.map serviceOfDoc

/-- From `src/main.py` lines 144-182, `list_team`: on a raised failure or
an empty result return the defaults; otherwise build a `TeamMember` from
every record, and since that construction happens inside the `try`, a
record that makes the constructor raise sends the whole read to the
`except` branch, i.e. to the defaults. -/
def list_team (store : Except String (List StoreDoc)) : List TeamMember :=
  match store with
  | .error _ => teamDefaults
  | .ok [] => teamDefaults
  | .ok docs =>
      match mapOpt teamMemberOfDoc docs with
      | some ms => ms
      | none => teamDefaults

/-- From `src/main.py` lines 185-213, `list_testimonials`: same shape as
`list_team` with the `Testimonial` construction. -/
def list_testimonials (store : Except String (List StoreDoc)) : List Testimonial :=
  match store with
  | .error _ => testimonialDefaults
  | .ok [] => testimonialDefaults
  | .ok docs =>
      match mapOpt testimonialOfDoc docs with
      | some ts => ts
      | none => testimonialDefaults

/-- Modelled from the spec: "email (string, required, must match standard
email address syntax)". The `EmailStr` validator is an external library,
not in `src/`; this is a simple syntactic check (exactly one `@` with a
non-empty part on each side, and a dot in the domain) agreeing with the
spec's two test vectors. -/
def emailValid (s : String) : Bool :=
  match s.toList.splitOn '@' with
  | [lp, dom] => !lp.isEmpty && !dom.isEmpty && dom.contains '.'
  | _ => false

/-- From `src/main.py` line 25: `Field(..., min_length=2, max_length=120)`
on `name`. -/
def nameLenOk (s : String) : Bool :=
  2 ≤ s.length && s.length ≤ 120

/-- From `src/main.py` line 28: `Field(..., min_length=5, max_length=5000)`
on `message`. -/
def msgLenOk (s : String) : Bool :=
  5 ≤ s.length && s.length ≤ 5000

/-- From `src/main.py` lines 24-29: the `ContactIn` pydantic model. -/
structure ContactIn where
  name : String
  email : String
  company : Option String
  message : String
  preferred_time : Option String
deriving DecidableEq

/-- From `src/main.py` lines 32-38: the `ContactOut` pydantic model.
Note there is no `preferred_time` field, and `company` is declared
`Optional[str] = None`, so the field exists on every instance (value
possibly `None`). -/
structure ContactOut where
  id : String
  name : String
  email : String
  company : Option String
  message : String
  created_at : Nat
deriving DecidableEq

/-- A field of `v`: `some s` is a string value, `none` is Python `None`. -/
def fieldOk (v : Option String) (p : String → Bool) : Bool :=
  match v with
  | none => false
  | some s => p s

/-- Pydantic validation of a request body against `ContactIn`
(`src/main.py` lines 24-29): each required field is checked independently
and every failing field is reported, in declaration order; optional fields
(`company`, `preferred_time`) are taken as given or default to `None`;
keys not declared on the model are ignored. -/
def contactErrs (inp : List (String × String)) : List String :=
  (if fieldOk (inp.lookup "name") nameLenOk then [] else ["name"])
  ++ (if fieldOk (inp.lookup "email") emailValid then [] else ["email"])
  ++ (if fieldOk (inp.lookup "message") msgLenOk then [] else ["message"])

/-- The outcome of the pydantic validation: either the parsed `ContactIn`
or the list of offending fields. -/
def validateContact (inp : List (String × String)) :
    Except (List String) ContactIn :=
  match inp.lookup "name", inp.lookup "email", inp.lookup "message" with
  | some n, some e, some m =>
      if contactErrs inp = [] then
        .ok { name := n, email := e, company := inp.lookup "company"
            , message := m, preferred_time := inp.lookup "preferred_time" }
      else .error (contactErrs inp)
  | _, _, _ => .error (contactErrs inp)

/-- From `src/main.py` line 78: `data = payload.dict()`. Pydantic `.dict()`
with default options emits every declared field in declaration order, with
`None` for an optional field that was not supplied. This is the record
handed to the store insert. -/
def contactData (c : ContactIn) : List (String × Option String) :=
  [ ("name", some c.name)
  , ("email", some c.email)
  , ("company", c.company)
  , ("message", some c.message)
  , ("preferred_time", c.preferred_time) ]

/-- Outcome of the store insert `create_document("contact", data)`
(module `database`, not in `src/`). Modelled from the spec: "The store
assigns a unique identifier and a creation timestamp at the moment of
insertion"; a failed insert raises. -/
inductive InsertResult where
  | ok (id : String) (createdAt : Nat)
  | fail (e : String)
deriving DecidableEq

/-- The document returned by a successful `create_document("contact",
data)`: the inserted data plus the store-assigned `_id` (here `mongoId`)
and `created_at`. -/
structure ContactDoc where
  mongoId : String
  created_at : Nat
  data : List (String × Option String)
deriving DecidableEq

/-- `doc[k]` on a contact document's data for a field known to hold a
string. -/
def getReq (d : List (String × Option String)) (k : String) : String :=
  match d.lookup k with
  | some (some s) => s
  | _ => ""

/-- `doc.get(k)` on a contact document's data: `None` when the key is
missing or holds `None`. -/
def getOpt (d : List (String × Option String)) (k : String) : Option String :=
  (d.lookup k).bind (fun v => v)

/-- The three possible outcomes of `POST /contact`: a 4xx pydantic
validation error naming the failing fields, a 5xx from an uncaught store
failure, or a 2xx carrying the `ContactOut` body. -/
inductive ContactResult where
  | validationError (fields : List String)
  | serverError (e : String)
  | success (out : ContactOut)
deriving DecidableEq

/-- Whether a `POST /contact` outcome is a 2xx success. -/
def ContactResult.isSuccess : ContactResult → Bool
  | .success _ => true
  | _ => false

/-- From `src/main.py` lines 76-88, `create_contact`, with the request
body and the store's insert outcome passed explicitly. Validation happens
before the handler body runs (FastAPI parses the body into `ContactIn`);
on success `data = payload.dict()` is handed to `create_document` and the
returned document is mapped into `ContactOut` (`_id` mapped to `id`).
There is no `try`, so a raised insert failure propagates as a server-side
error. Returns the response together with the list of records durably
created by the call. -/
def create_contact (inp : List (String × String)) (r : InsertResult) :
    ContactResult × List ContactDoc :=
  match validateContact inp with
  | .error fs => (.validationError fs, [])
  | .ok c =>
      let data := contactData c
      match r with
      | .fail e => (.serverError e, [])
      | .ok i t =>
          let doc : ContactDoc := { mongoId := i, created_at := t, data := data }
          ( .success
              { id := doc.mongoId
              , name := getReq doc.data "name"
              , email := getReq doc.data "email"
              , company := getOpt doc.data "company"
              , message := getReq doc.data "message"
              , created_at := doc.created_at }
          , [doc] )

/-- A JSON value as serialized in a response body. -/
inductive Json where
  | str (s : String)
  | num (n : Nat)
  | null
deriving DecidableEq

/-- Serialization of a `ContactOut` response under the framework defaults
used in `src/main.py` line 76 (`response_model=ContactOut` with no
exclusion options): every declared field is emitted in declaration order,
and an `Optional` field holding `None` is emitted as `null`. -/
def ContactOut.render (c : ContactOut) : List (String × Json) :=
  [ ("id", .str c.id)
  , ("name", .str c.name)
  , ("email", .str c.email)
  , ("company", match c.company with | some s => .str s | none => .null)
  , ("message", .str c.message)
  , ("created_at", .num c.created_at) ]

/-- The serialized body of a `POST /contact` outcome when it is a 2xx
success, `[]` otherwise. -/
def responseRender (r : ContactResult) : List (String × Json) :=
  match r with
  | .success out => out.render
  | _ => []

/-! ## Helper lemmas -/

theorem mapOpt_eq_none_of_mem {α β} {f : α → Option β} {l : List α} {a : α}
    (ha : a ∈ l) (hf : f a = none) : mapOpt f l = none := by
  induction l with
  | nil => cases ha
  | cons b l ih =>
    rcases List.mem_cons.mp ha with h | h
    · subst h
      cases h2 : mapOpt f l <;> simp [mapOpt, hf, h2]
    · simp only [mapOpt, ih h]
      cases f b <;> rfl

theorem length_of_mapOpt {α β} {f : α → Option β} : ∀ {l : List α} {bs : List β},
    mapOpt f l = some bs → bs.length = l.length := by
  intro l
  induction l with
  | nil =>
    intro bs h
    simp [mapOpt] at h
    subst h
    rfl
  | cons a l ih =>
    intro bs h
    cases hfa : f a <;> cases hml : mapOpt f l <;> simp [mapOpt, hfa, hml] at h
    subst h
    simp [ih hml]

theorem fieldOk_nameLen_false_iff (v : Option String) :
    fieldOk v nameLenOk = false ↔
      (v = none ∨ ∃ s, v = some s ∧ (s.length < 2 ∨ 120 < s.length)) := by
  cases v with
  | none => simp [fieldOk]
  | some s =>
    simp [fieldOk, nameLenOk]
    omega

theorem fieldOk_msgLen_false_iff (v : Option String) :
    fieldOk v msgLenOk = false ↔
      (v = none ∨ ∃ s, v = some s ∧ (s.length < 5 ∨ 5000 < s.length)) := by
  cases v with
  | none => simp [fieldOk]
  | some s =>
    simp [fieldOk, msgLenOk]
    omega

theorem fieldOk_email_false_iff (v : Option String) :
    fieldOk v emailValid = false ↔
      (v = none ∨ ∃ s, v = some s ∧ emailValid s = false) := by
  cases v with
  | none => simp [fieldOk]
  | some s => simp [fieldOk]

theorem contactErrs_eq_nil_iff (inp : List (String × String)) :
    contactErrs inp = [] ↔
      (fieldOk (inp.lookup "name") nameLenOk = true ∧
       fieldOk (inp.lookup "email") emailValid = true ∧
       fieldOk (inp.lookup "message") msgLenOk = true) := by
  cases h1 : fieldOk (inp.lookup "name") nameLenOk <;>
    cases h2 : fieldOk (inp.lookup "email") emailValid <;>
      cases h3 : fieldOk (inp.lookup "message") msgLenOk <;>
        simp [contactErrs, h1, h2, h3]

theorem mem_contactErrs_name (inp : List (String × String)) :
    "name" ∈ contactErrs inp ↔ fieldOk (inp.lookup "name") nameLenOk = false := by
  cases h1 : fieldOk (inp.lookup "name") nameLenOk <;>
    cases h2 : fieldOk (inp.lookup "email") emailValid <;>
      cases h3 : fieldOk (inp.lookup "message") msgLenOk <;>
        simp [contactErrs, h1, h2, h3]

theorem mem_contactErrs_email (inp : List (String × String)) :
    "email" ∈ contactErrs inp ↔ fieldOk (inp.lookup "email") emailValid = false := by
  cases h1 : fieldOk (inp.lookup "name") nameLenOk <;>
    cases h2 : fieldOk (inp.lookup "email") emailValid <;>
      cases h3 : fieldOk (inp.lookup "message") msgLenOk <;>
        simp [contactErrs, h1, h2, h3]

theorem mem_contactErrs_message (inp : List (String × String)) :
    "message" ∈ contactErrs inp ↔ fieldOk (inp.lookup "message") msgLenOk = false := by
  cases h1 : fieldOk (inp.lookup "name") nameLenOk <;>
    cases h2 : fieldOk (inp.lookup "email") emailValid <;>
      cases h3 : fieldOk (inp.lookup "message") msgLenOk <;>
        simp [contactErrs, h1, h2, h3]

theorem mem_contactErrs_sub (inp : List (String × String)) :
    ∀ f ∈ contactErrs inp, f = "name" ∨ f = "email" ∨ f = "message" := by
  cases h1 : fieldOk (inp.lookup "name") nameLenOk <;>
    cases h2 : fieldOk (inp.lookup "email") emailValid <;>
      cases h3 : fieldOk (inp.lookup "message") msgLenOk <;>
        simp [contactErrs, h1, h2, h3]

theorem validateContact_error_iff (inp : List (String × String))
    (fs : List String) :
    validateContact inp = .error fs ↔
      (contactErrs inp ≠ [] ∧ fs = contactErrs inp) := by
  cases hn : inp.lookup "name" <;> cases he : inp.lookup "email" <;>
    cases hm : inp.lookup "message" <;>
      simp only [validateContact, hn, he, hm]
  case some.some.some n e m =>
    split
    next hE => simp [hE]
    next hE => simp [hE, eq_comm]
  all_goals
    have hne : contactErrs inp ≠ [] := by
      rw [Ne, contactErrs_eq_nil_iff]
      simp [fieldOk, hn, he, hm]
    simp [hne, eq_comm]

theorem validateContact_ok_spec (inp : List (String × String)) (c : ContactIn)
    (h : validateContact inp = .ok c) :
    inp.lookup "name" = some c.name ∧
    inp.lookup "email" = some c.email ∧
    inp.lookup "message" = some c.message ∧
    c.company = inp.lookup "company" ∧
    c.preferred_time = inp.lookup "preferred_time" := by
  cases hn : inp.lookup "name" <;> cases he : inp.lookup "email" <;>
    cases hm : inp.lookup "message" <;>
      simp only [validateContact, hn, he, hm] at h <;>
        try exact absurd h (by simp)
  case some.some.some n e m =>
    split at h
    next =>
      rw [Except.ok.injEq] at h
      subst h
      exact ⟨rfl, rfl, rfl, rfl, rfl⟩
    next => exact absurd h (by simp)

theorem validateContact_ignores_unknown (inp : List (String × String))
    (v : String) :
    validateContact (("created_at", v) :: inp) = validateContact inp := by
  simp [validateContact, contactErrs, List.lookup,
    show (("created_at" : String) == "name") = false from rfl,
    show (("created_at" : String) == "email") = false from rfl,
    show (("created_at" : String) == "message") = false from rfl,
    show (("created_at" : String) == "company") = false from rfl,
    show (("created_at" : String) == "preferred_time") = false from rfl]

theorem create_contact_validationError_iff (inp : List (String × String))
    (r : InsertResult) (fs : List String) :
    (create_contact inp r).1 = .validationError fs ↔
      validateContact inp = .error fs := by
  cases h : validateContact inp with
  | error g => simp [create_contact, h]
  | ok c => cases r <;> simp [create_contact, h]

theorem create_contact_no_write_on_error (inp : List (String × String))
    (r : InsertResult) (fs : List String)
    (h : (create_contact inp r).1 = .validationError fs) :
    (create_contact inp r).2 = [] := by
  have hv := (create_contact_validationError_iff inp r fs).mp h
  simp [create_contact, hv]

/-! ## Claim theorems -/

/-- Claim C1: for each of the three content read operations, a store
query that returns zero records or raises any failure makes the operation
return exactly that kind's fixed built-in default sequence, unchanged and
non-empty; the failure value is never surfaced to the caller. -/
theorem C1_reads_mask_failures_with_defaults :
    (∀ e, list_services (.error e) = servicesDefaults) ∧
    list_services (.ok []) = servicesDefaults ∧
    (∀ e, list_team (.error e) = teamDefaults) ∧
    list_team (.ok []) = teamDefaults ∧
    (∀ e, list_testimonials (.error e) = testimonialDefaults) ∧
    list_testimonials (.ok []) = testimonialDefaults ∧
    servicesDefaults ≠ [] ∧ teamDefaults ≠ [] ∧ testimonialDefaults ≠ [] := by
  refine ⟨fun e => rfl, rfl, fun e => rfl, rfl, fun e => rfl, rfl, ?_, ?_, ?_⟩ <;>
    simp [servicesDefaults, teamDefaults, testimonialDefaults]

/-- Claim C7: against an empty store, the services read returns exactly
the 4 literal default services in the fixed order corporate-benefits,
wellness-programs, telemedicine, claims-management, with the literal
titles, subtitles, descriptions and icons. -/
theorem C7_empty_store_services_literal :
    list_services (.ok []) =
      [ { key := "corporate-benefits"
        , title := "Corporate Benefits Packages"
        , subtitle := some "Custom plans for every team"
        , description := "Design comprehensive, scalable health plans for organizations of any size, optimized for cost, coverage, and employee satisfaction."
        , icon := some "Building" }
      , { key := "wellness-programs"
        , title := "Employee Wellness Programs"
        , subtitle := some "Holistic wellbeing at work"
        , description := "From fitness and nutrition to mental health, empower your workforce with programs that measurably improve wellbeing."
        , icon := some "HeartPulse" }
      , { key := "telemedicine"
        , title := "Telemedicine & Digital Health"
        , subtitle := some "Care, anywhere"
        , description := "Remote consultations, virtual primary care, and digital tools that bring healthcare to your people wherever they are."
        , icon := some "Smartphone" }
      , { key := "claims-management"
        , title := "Insurance & Claims Management"
        , subtitle := some "End-to-end support"
        , description := "Streamlined administration for benefits, eligibility, and claims — with transparency and compliance built-in."
        , icon := some "ShieldCheck" } ] := rfl

/-- Claim C2: when the services query succeeds with N ≥ 1 records, the
read returns exactly N Service entities in the store's order; a missing
`key` becomes "service", a missing `title` becomes "Service", a missing
`description` becomes the empty string, missing `subtitle`/`icon` stay
absent, and the result depends on no attribute outside the Service shape. -/
theorem C2_services_defaulting (docs : List StoreDoc) (h : docs ≠ []) :
    (list_services (.ok docs)).length = docs.length ∧
    list_services (.ok docs) = docs.map (fun d =>
      { key := (d.lookup "key").getD "service"
      , title := (d.lookup "title").getD "Service"
      , subtitle := d.lookup "subtitle"
      , description := (d.lookup "description").getD ""
      , icon := d.lookup "icon" }) ∧
    (∀ d d' : StoreDoc,
      d.lookup "key" = d'.lookup "key" →
      d.lookup "title" = d'.lookup "title" →
      d.lookup "subtitle" = d'.lookup "subtitle" →
      d.lookup "description" = d'.lookup "description" →
      d.lookup "icon" = d'.lookup "icon" →
      serviceOfDoc d = serviceOfDoc d') := by
  refine ⟨?_, ?_, ?_⟩
  · cases docs with
    | nil => exact absurd rfl h
    | cons a l => simp [list_services]
  · cases docs with
    | nil => exact absurd rfl h
    | cons a l => rfl
  · intro d d' h1 h2 h3 h4 h5
    simp [serviceOfDoc, h1, h2, h3, h4, h5]

/-- Witness for C2 at a one-record store whose record has only `title`
and an extra attribute. -/
theorem C2_services_defaulting_witness :
    (([[("title", "T"), ("extra", "Z")]] : List StoreDoc) ≠ []) ∧
    (list_services (.ok [[("title", "T"), ("extra", "Z")]])).length = 1 :=
  ⟨by decide, by
    have h := (C2_services_defaulting [[("title", "T"), ("extra", "Z")]] (by decide)).1
    simpa using h⟩

/-- Claim C9: for the team and testimonials reads, if the store returns
N ≥ 1 records and any single record fails to form a valid entity (a team
record without `name`, `role` or `bio`; a testimonial without `author` or
`quote`), the whole response is the kind's fixed default sequence. -/
theorem C9_invalid_record_full_fallback (ds ts : List StoreDoc)
    (d : StoreDoc) (hd : d ∈ ds) (hbad : teamMemberOfDoc d = none)
    (e : StoreDoc) (he : e ∈ ts) (hebad : testimonialOfDoc e = none) :
    list_team (.ok ds) = teamDefaults ∧
    list_testimonials (.ok ts) = testimonialDefaults := by
  constructor
  · have hm := mapOpt_eq_none_of_mem hd hbad
    cases ds with
    | nil => cases hd
    | cons a l => simp [list_team, hm]
  · have hm := mapOpt_eq_none_of_mem he hebad
    cases ts with
    | nil => cases he
    | cons a l => simp [list_testimonials, hm]

/-- Witness for C9: a team record missing `name` and a testimonial record
missing `quote` each force the full default sequence. -/
theorem C9_invalid_record_full_fallback_witness :
    teamMemberOfDoc [("role", "r"), ("bio", "b")] = none ∧
    testimonialOfDoc [("author", "A")] = none ∧
    list_team (.ok [[("role", "r"), ("bio", "b")]]) = teamDefaults ∧
    list_testimonials (.ok [[("author", "A")]]) = testimonialDefaults := by
  refine ⟨rfl, rfl, ?_, ?_⟩
  · exact (C9_invalid_record_full_fallback
      [[("role", "r"), ("bio", "b")]] [[("author", "A")]]
      [("role", "r"), ("bio", "b")] (by simp) rfl
      [("author", "A")] (by simp) rfl).1
  · exact (C9_invalid_record_full_fallback
      [[("role", "r"), ("bio", "b")]] [[("author", "A")]]
      [("role", "r"), ("bio", "b")] (by simp) rfl
      [("author", "A")] (by simp) rfl).2

/-- Claim C5 counterexample: a single team record missing the required
`name` field does not yield 1 entity built by per-field defaulting — the
read falls back to the 4 defaults, so the claim "the operation still
returns exactly N entities" fails for the team kind at N = 1. -/
theorem C5_counterexample_team_not_tolerant :
    (list_team (.ok [[("role", "Chief"), ("bio", "Bio text")]])).length ≠ 1 := by
  decide

/-- Claim C5 (amended): for the services kind a partial record is
tolerated via per-field defaulting and a successful non-empty query
returns exactly N entities; for the team and testimonials kinds no error
is ever raised, but an incomplete record makes the whole read return the
fixed default sequence instead of the N mapped entities. -/
theorem C5_amended_per_kind_tolerance (docs ds ts : List StoreDoc)
    (h : docs ≠ []) (h2 : ds ≠ []) (h3 : ts ≠ []) :
    (list_services (.ok docs)).length = docs.length ∧
    ((list_team (.ok ds)).length = ds.length ∨
      list_team (.ok ds) = teamDefaults) ∧
    ((list_testimonials (.ok ts)).length = ts.length ∨
      list_testimonials (.ok ts) = testimonialDefaults) := by
  refine ⟨?_, ?_, ?_⟩
  · cases docs with
    | nil => exact absurd rfl h
    | cons a l => simp [list_services]
  · cases ds with
    | nil => exact absurd rfl h2
    | cons a l =>
      cases hm : mapOpt teamMemberOfDoc (a :: l) with
      | none => right; simp [list_team, hm]
      | some ms => left; simp [list_team, hm, length_of_mapOpt hm]
  · cases ts with
    | nil => exact absurd rfl h3
    | cons a l =>
      cases hm : mapOpt testimonialOfDoc (a :: l) with
      | none => right; simp [list_testimonials, hm]
      | some vs => left; simp [list_testimonials, hm, length_of_mapOpt hm]

/-- Witness for the amended C5 at concrete one-record stores. -/
theorem C5_amended_per_kind_tolerance_witness :
    (([[("title", "T")]] : List StoreDoc) ≠ []) ∧
    (([[("name", "N"), ("role", "R"), ("bio", "B")]] : List StoreDoc) ≠ []) ∧
    (([[("author", "A"), ("quote", "Q")]] : List StoreDoc) ≠ []) ∧
    ((list_services (.ok [[("title", "T")]])).length = [[("title", "T")]].length ∧
      ((list_team (.ok [[("name", "N"), ("role", "R"), ("bio", "B")]])).length =
          [[("name", "N"), ("role", "R"), ("bio", "B")]].length ∨
        list_team (.ok [[("name", "N"), ("role", "R"), ("bio", "B")]]) = teamDefaults) ∧
      ((list_testimonials (.ok [[("author", "A"), ("quote", "Q")]])).length =
          [[("author", "A"), ("quote", "Q")]].length ∨
        list_testimonials (.ok [[("author", "A"), ("quote", "Q")]]) = testimonialDefaults)) :=
  ⟨by decide, by decide, by decide,
    C5_amended_per_kind_tolerance
      [[("title", "T")]]
      [[("name", "N"), ("role", "R"), ("bio", "B")]]
      [[("author", "A"), ("quote", "Q")]]
      (by decide) (by decide) (by decide)⟩

theorem validateContact_ok_of (inp : List (String × String)) (n e m : String)
    (hn : inp.lookup "name" = some n) (he : inp.lookup "email" = some e)
    (hm : inp.lookup "message" = some m)
    (h1 : nameLenOk n = true) (h2 : emailValid e = true)
    (h3 : msgLenOk m = true) :
    ∃ c, validateContact inp = .ok c := by
  have hE : contactErrs inp = [] := by
    rw [contactErrs_eq_nil_iff, hn, he, hm]
    exact ⟨h1, h2, h3⟩
  exact ⟨⟨n, e, inp.lookup "company", m, inp.lookup "preferred_time"⟩,
    by simp [validateContact, hn, he, hm, hE]⟩

theorem validateContact_name_only_bad (inp : List (String × String))
    (n e m : String)
    (hn : inp.lookup "name" = some n) (he : inp.lookup "email" = some e)
    (hm : inp.lookup "message" = some m)
    (h1 : nameLenOk n = false) (h2 : emailValid e = true)
    (h3 : msgLenOk m = true) :
    validateContact inp = .error ["name"] := by
  have hE : contactErrs inp = ["name"] := by
    simp [contactErrs, hn, he, hm, fieldOk, h1, h2, h3]
  simp [validateContact, hn, he, hm, hE]

theorem validateContact_message_only_bad (inp : List (String × String))
    (n e m : String)
    (hn : inp.lookup "name" = some n) (he : inp.lookup "email" = some e)
    (hm : inp.lookup "message" = some m)
    (h1 : nameLenOk n = true) (h2 : emailValid e = true)
    (h3 : msgLenOk m = false) :
    validateContact inp = .error ["message"] := by
  have hE : contactErrs inp = ["message"] := by
    simp [contactErrs, hn, he, hm, fieldOk, h1, h2, h3]
  simp [validateContact, hn, he, hm, hE]

theorem length_mk_replicate (k : Nat) :
    (String.mk (List.replicate k 'a')).length = k := by
  have h : (String.mk (List.replicate k 'a')).length =
      (List.replicate k 'a').length := rfl
  simp [h]

/-- Claim C3: contact validation is a pure function of the input: the
submission is rejected with a validation error naming exactly the
offending field(s), and no store write occurs, exactly when `name` is
absent or has length outside 2-120 inclusive, `message` is absent or has
length outside 5-5000 inclusive, or `email` is absent or not
syntactically valid; the boundary lengths 2 and 120 for `name` and 5 and
5000 for `message` are accepted. -/
theorem C3_validation_pure_characterization :
    (∀ (inp : List (String × String)) (r : InsertResult),
      (∃ fs, (create_contact inp r).1 = .validationError fs) ↔
        ((inp.lookup "name" = none ∨
            ∃ s, inp.lookup "name" = some s ∧ (s.length < 2 ∨ 120 < s.length)) ∨
         (inp.lookup "email" = none ∨
            ∃ s, inp.lookup "email" = some s ∧ emailValid s = false) ∨
         (inp.lookup "message" = none ∨
            ∃ s, inp.lookup "message" = some s ∧ (s.length < 5 ∨ 5000 < s.length)))) ∧
    (∀ (inp : List (String × String)) (r : InsertResult) (fs : List String),
      (create_contact inp r).1 = .validationError fs →
        (create_contact inp r).2 = [] ∧ fs ≠ [] ∧
        ("name" ∈ fs ↔ (inp.lookup "name" = none ∨
            ∃ s, inp.lookup "name" = some s ∧ (s.length < 2 ∨ 120 < s.length))) ∧
        ("email" ∈ fs ↔ (inp.lookup "email" = none ∨
            ∃ s, inp.lookup "email" = some s ∧ emailValid s = false)) ∧
        ("message" ∈ fs ↔ (inp.lookup "message" = none ∨
            ∃ s, inp.lookup "message" = some s ∧ (s.length < 5 ∨ 5000 < s.length))) ∧
        (∀ f ∈ fs, f = "name" ∨ f = "email" ∨ f = "message")) ∧
    (∃ c, validateContact
        [("name", "ab"), ("email", "a@b.com"), ("message", "hello")] = .ok c) ∧
    (∃ c, validateContact
        [("name", String.mk (List.replicate 120 'a')), ("email", "a@b.com"),
         ("message", String.mk (List.replicate 5000 'a'))] = .ok c) ∧
    (∃ fs, "name" ∈ fs ∧ validateContact
        [("name", "a"), ("email", "a@b.com"), ("message", "hello")] = .error fs) ∧
    (∃ fs, "name" ∈ fs ∧ validateContact
        [("name", String.mk (List.replicate 121 'a')), ("email", "a@b.com"),
         ("message", "hello")] = .error fs) ∧
    (∃ fs, "message" ∈ fs ∧ validateContact
        [("name", "ab"), ("email", "a@b.com"), ("message", "hell")] = .error fs) ∧
    (∃ fs, "message" ∈ fs ∧ validateContact
        [("name", "ab"), ("email", "a@b.com"),
         ("message", String.mk (List.replicate 5001 'a'))] = .error fs) ∧
    (∃ fs, "email" ∈ fs ∧ validateContact
        [("name", "ab"), ("email", "not-an-email"), ("message", "hello")] = .error fs) := by
  refine ⟨?_, ?_, ⟨_, rfl⟩, ?_, ⟨["name"], by simp, rfl⟩,
    ⟨["name"], by simp, ?_⟩, ⟨["message"], by simp, rfl⟩,
    ⟨["message"], by simp, ?_⟩, ⟨["email"], by simp, rfl⟩⟩
  · intro inp r
    constructor
    · rintro ⟨fs, hfs⟩
      have hv := (create_contact_validationError_iff inp r fs).mp hfs
      have hne := ((validateContact_error_iff inp fs).mp hv).1
      rw [Ne, contactErrs_eq_nil_iff] at hne
      simp only [not_and_or, Bool.not_eq_true] at hne
      rcases hne with h | h | h
      · exact Or.inl ((fieldOk_nameLen_false_iff _).mp h)
      · exact Or.inr (Or.inl ((fieldOk_email_false_iff _).mp h))
      · exact Or.inr (Or.inr ((fieldOk_msgLen_false_iff _).mp h))
    · intro hbad
      have hne : contactErrs inp ≠ [] := by
        rw [Ne, contactErrs_eq_nil_iff]
        rintro ⟨h1, h2, h3⟩
        rcases hbad with h | h | h
        · rw [← fieldOk_nameLen_false_iff] at h
          rw [h1] at h
          cases h
        · rw [← fieldOk_email_false_iff] at h
          rw [h2] at h
          cases h
        · rw [← fieldOk_msgLen_false_iff] at h
          rw [h3] at h
          cases h
      exact ⟨contactErrs inp, (create_contact_validationError_iff inp r _).mpr
        ((validateContact_error_iff inp _).mpr ⟨hne, rfl⟩)⟩
  · intro inp r fs hfs
    have hv := (create_contact_validationError_iff inp r fs).mp hfs
    obtain ⟨hne, rfl⟩ := (validateContact_error_iff inp fs).mp hv
    refine ⟨create_contact_no_write_on_error inp r _ hfs, hne, ?_, ?_, ?_,
      mem_contactErrs_sub inp⟩
    · rw [mem_contactErrs_name, fieldOk_nameLen_false_iff]
    · rw [mem_contactErrs_email, fieldOk_email_false_iff]
    · rw [mem_contactErrs_message, fieldOk_msgLen_false_iff]
  · exact validateContact_ok_of _ _ _ _ rfl rfl rfl
      (by simp only [nameLenOk, length_mk_replicate]; decide)
      (by decide)
      (by simp only [msgLenOk, length_mk_replicate]; decide)
  · exact validateContact_name_only_bad _ _ _ _ rfl rfl rfl
      (by simp only [nameLenOk, length_mk_replicate]; decide)
      (by decide) (by decide)
  · exact validateContact_message_only_bad _ _ _ _ rfl rfl rfl
      (by decide) (by decide)
      (by simp only [msgLenOk, length_mk_replicate]; decide)

/-- Claim C4: after successful validation, a store insert failure is not
masked: it surfaces to the caller as a server-side error carrying the
failure, no record is created, and no success response is produced;
conversely a successful insert creates exactly one record and yields a
success response. -/
theorem C4_insert_failure_propagates (inp : List (String × String))
    (c : ContactIn) (h : validateContact inp = .ok c) :
    (∀ e, (create_contact inp (.fail e)).1 = .serverError e ∧
          (create_contact inp (.fail e)).2 = []) ∧
    (∀ i t, ((create_contact inp (.ok i t)).1).isSuccess = true ∧
            (create_contact inp (.ok i t)).2.length = 1) := by
  constructor
  · intro e
    constructor <;> simp [create_contact, h]
  · intro i t
    constructor <;> simp [create_contact, h, ContactResult.isSuccess]

/-- Witness for C4 at a concrete valid submission and a failing insert. -/
theorem C4_insert_failure_propagates_witness :
    validateContact [("name", "Jo"), ("email", "jo@x.com"), ("message", "Hello there")] =
      .ok { name := "Jo", email := "jo@x.com", company := none
          , message := "Hello there", preferred_time := none } ∧
    (create_contact [("name", "Jo"), ("email", "jo@x.com"), ("message", "Hello there")]
        (.fail "db down")).1 = .serverError "db down" ∧
    (create_contact [("name", "Jo"), ("email", "jo@x.com"), ("message", "Hello there")]
        (.fail "db down")).2 = [] :=
  ⟨rfl, (C4_insert_failure_propagates
    [("name", "Jo"), ("email", "jo@x.com"), ("message", "Hello there")]
    { name := "Jo", email := "jo@x.com", company := none
    , message := "Hello there", preferred_time := none } rfl).1 "db down"⟩

/-- Claim C6 counterexample: the response to the spec's own scenario
(`name="Jo"`, `email="jo@x.com"`, `message="Hello there"`, no company)
carries a `company` field with a null value — the field is present in the
serialized response, not absent as the claim states. -/
theorem C6_counterexample_company_null :
    ("company", Json.null) ∈
      responseRender ((create_contact
        [("name", "Jo"), ("email", "jo@x.com"), ("message", "Hello there")]
        (.ok "abc123" 1700000000)).1) := by
  decide

/-- Claim C6 (amended): the response to a successful contact submission is
the full persisted record — identifier, name, email, company, message,
creation timestamp — and an optional field absent on the input is present
in the response with a null value (not absent). -/
theorem C6_amended_response_full_record (inp : List (String × String))
    (i : String) (t : Nat) (c : ContactIn)
    (h : validateContact inp = .ok c) :
    responseRender ((create_contact inp (.ok i t)).1) =
      [ ("id", .str i)
      , ("name", .str c.name)
      , ("email", .str c.email)
      , ("company", match inp.lookup "company" with
                    | some s => Json.str s
                    | none => Json.null)
      , ("message", .str c.message)
      , ("created_at", .num t) ] := by
  obtain ⟨hn, he, hm, hc, hp⟩ := validateContact_ok_spec inp c h
  simp only [create_contact, h, responseRender, ContactOut.render]
  rw [← hc]
  rfl

/-- Witness for the amended C6 at the spec's scenario input. -/
theorem C6_amended_response_full_record_witness :
    validateContact [("name", "Jo"), ("email", "jo@x.com"), ("message", "Hello there")] =
      .ok { name := "Jo", email := "jo@x.com", company := none
          , message := "Hello there", preferred_time := none } ∧
    responseRender ((create_contact
        [("name", "Jo"), ("email", "jo@x.com"), ("message", "Hello there")]
        (.ok "abc123" 1700000000)).1) =
      [ ("id", .str "abc123"), ("name", .str "Jo"), ("email", .str "jo@x.com")
      , ("company", Json.null), ("message", .str "Hello there")
      , ("created_at", .num 1700000000) ] :=
  ⟨rfl, C6_amended_response_full_record
    [("name", "Jo"), ("email", "jo@x.com"), ("message", "Hello there")]
    "abc123" 1700000000
    { name := "Jo", email := "jo@x.com", company := none
    , message := "Hello there", preferred_time := none } rfl⟩

/-- Claim C8: the record handed to the store insert contains exactly the
five input fields in order, never a creation timestamp; a caller-supplied
`created_at` input field is ignored entirely; and the `created_at` of
every record created by the call is the store-assigned timestamp. -/
theorem C8_created_at_store_assigned (inp : List (String × String))
    (v i : String) (t : Nat) (r : InsertResult) (c : ContactIn)
    (h : validateContact inp = .ok c) :
    create_contact (("created_at", v) :: inp) r = create_contact inp r ∧
    (contactData c).map Prod.fst =
      ["name", "email", "company", "message", "preferred_time"] ∧
    (∀ doc ∈ (create_contact inp (.ok i t)).2,
      doc.created_at = t ∧ doc.data.lookup "created_at" = none) := by
  refine ⟨?_, rfl, ?_⟩
  · simp only [create_contact, validateContact_ignores_unknown]
  · intro doc hdoc
    simp only [create_contact, h] at hdoc
    rw [List.mem_singleton] at hdoc
    subst hdoc
    exact ⟨rfl, rfl⟩

/-- Witness for C8: a caller-supplied `created_at` on a concrete valid
submission changes nothing. -/
theorem C8_created_at_store_assigned_witness :
    validateContact [("name", "Jo"), ("email", "jo@x.com"), ("message", "Hello there")] =
      .ok { name := "Jo", email := "jo@x.com", company := none
          , message := "Hello there", preferred_time := none } ∧
    create_contact
        (("created_at", "1999-01-01") ::
          [("name", "Jo"), ("email", "jo@x.com"), ("message", "Hello there")])
        (.ok "x1" 7) =
      create_contact [("name", "Jo"), ("email", "jo@x.com"), ("message", "Hello there")]
        (.ok "x1" 7) :=
  ⟨rfl, (C8_created_at_store_assigned
    [("name", "Jo"), ("email", "jo@x.com"), ("message", "Hello there")]
    "1999-01-01" "x1" 7 (.ok "x1" 7)
    { name := "Jo", email := "jo@x.com", company := none
    , message := "Hello there", preferred_time := none } rfl).1⟩

/-- Claim C10: for every valid submission the `preferred_time` value (as
given, possibly `None`) is part of the record handed to the store insert,
but the serialized success response never carries a `preferred_time`
field. -/
theorem C10_preferred_time_stored_not_returned (inp : List (String × String))
    (i : String) (t : Nat) (c : ContactIn)
    (h : validateContact inp = .ok c) :
    (contactData c).lookup "preferred_time" = some (inp.lookup "preferred_time") ∧
    (∀ doc ∈ (create_contact inp (.ok i t)).2,
      doc.data.lookup "preferred_time" = some (inp.lookup "preferred_time")) ∧
    (∀ out : ContactOut,
      out.render.map Prod.fst =
        ["id", "name", "email", "company", "message", "created_at"] ∧
      "preferred_time" ∉ out.render.map Prod.fst) := by
  obtain ⟨hn, he, hm, hc, hp⟩ := validateContact_ok_spec inp c h
  refine ⟨?_, ?_, ?_⟩
  · rw [← hp]
    rfl
  · intro doc hdoc
    simp only [create_contact, h] at hdoc
    rw [List.mem_singleton] at hdoc
    subst hdoc
    rw [← hp]
    rfl
  · intro out
    refine ⟨rfl, ?_⟩
    rw [show out.render.map Prod.fst =
      ["id", "name", "email", "company", "message", "created_at"] from rfl]
    decide

/-- Witness for C10 at a concrete submission carrying `preferred_time`. -/
theorem C10_preferred_time_stored_not_returned_witness :
    validateContact
        [("name", "Jo"), ("email", "jo@x.com"), ("message", "Hello there"),
         ("preferred_time", "noon")] =
      .ok { name := "Jo", email := "jo@x.com", company := none
          , message := "Hello there", preferred_time := some "noon" } ∧
    (contactData
        { name := "Jo", email := "jo@x.com", company := none
        , message := "Hello there", preferred_time := some "noon" }).lookup
        "preferred_time" =
      some ([("name", "Jo"), ("email", "jo@x.com"), ("message", "Hello there"),
        ("preferred_time", "noon")].lookup "preferred_time") :=
  ⟨rfl, (C10_preferred_time_stored_not_returned
    [("name", "Jo"), ("email", "jo@x.com"), ("message", "Hello there"),
     ("preferred_time", "noon")]
    "x1" 7
    { name := "Jo", email := "jo@x.com", company := none
    , message := "Hello there", preferred_time := some "noon" } rfl).1⟩
